import Mathlib

/-!
Verification of the probe_runner repository: a shallow embedding of the
repo-local logic (probe evaluation, probe-file loading, activation-extractor
state, cache locator, model-handler control flow, CLI validation) together
with theorems settling the frozen claims about the natural-language spec.

Conventions of the embedding:
* Python tensors are modelled over exact integers (`Int`); the claims under
  study are about the structure of the computation, not float rounding.
* Python `None` / attribute absence is modelled with `Option`.
* Fallible Python code (raising `ValueError` etc.) is modelled with
  `Except String` or `Option`.
-/

namespace ProbeRunner

/-! ## Tensor model

A minimal model of the torch tensors this repository manipulates: rank-0
scalars, rank-1 vectors, rank-2 matrices over `Int`. -/

inductive Tensor where
  | scalar (x : Int)
  | vec (v : List Int)
  | mat (m : List (List Int))
deriving DecidableEq

/-- Model of `torch.Tensor.dim()`. -/
def Tensor.dim : Tensor → Nat
  | .scalar _ => 0
  | .vec _ => 1
  | .mat _ => 2

/-- Model of `torch.dot` on two equal-length rank-1 tensors. -/
def torchDot (a b : List Int) : Int :=
  (List.zipWith (· * ·) a b).sum

/-- Model of `torch.matmul(w, a)` for `w` of shape R×D and `a` of length D:
one dot product per row of `w`. -/
def torchMatvec (w : List (List Int)) (a : List Int) : List Int :=
  w.map (fun r => torchDot r a)

/-- Model of elementwise `+` with torch broadcasting for the shapes this
repository can reach (scalar/vector operands); shape mismatch fails. -/
def tensorAdd : Tensor → Tensor → Option Tensor
  | .scalar x, .scalar y => some (.scalar (x + y))
  | .vec v, .scalar y => some (.vec (v.map (· + y)))
  | .scalar x, .vec v => some (.vec (v.map (x + ·)))
  | .vec v, .vec w =>
      if v.length = w.length then some (.vec (List.zipWith (· + ·) v w)) else none
  | _, _ => none

/-! ## Probe evaluator — `compute_probe` (src/activation_extraction.py, lines 112-125)

```python
def compute_probe(activation, probe_weights, probe_bias=None):
    if probe_weights.dim() == 1:
        output = torch.dot(activation, probe_weights)
        if probe_bias is not None:
            output = output + probe_bias
        return output
    else:
        output = torch.matmul(probe_weights, activation)
        if probe_bias is not None:
            output = output + probe_bias
        return output
```
`none` models the numeric/shape error raised by torch on mismatched shapes. -/

def compute_probe (activation : Tensor) (probe_weights : Tensor)
    (probe_bias : Option Tensor) : Option Tensor :=
  if probe_weights.dim = 1 then
    match activation, probe_weights with
    | .vec a, .vec w =>
        if a.length = w.length then
          match probe_bias with
          | none => some (.scalar (torchDot a w))
          | some b => tensorAdd (.scalar (torchDot a w)) b
        else none
    | _, _ => none
  else
    match probe_weights, activation with
    | .mat w, .vec a =>
        if w.all (fun r => r.length = a.length) then
          match probe_bias with
          | none => some (.vec (torchMatvec w a))
          | some b => tensorAdd (.vec (torchMatvec w a)) b
        else none
    | _, _ => none

/-! ## Probe loading — `load_probe_from_file` (src/activation_extraction.py, lines 128-143)

```python
checkpoint = torch.load(probe_path, map_location="cpu")
if isinstance(checkpoint, dict):
    weights = checkpoint.get("weight", checkpoint.get("weights"))
    bias = checkpoint.get("bias", checkpoint.get("bias", None))
else:
    weights = checkpoint
    bias = None
if weights is None:
    raise ValueError(f"Could not find weights in probe file: {probe_path}")
return weights, bias
```
A checkpoint is either a mapping — modelled by the three relevant keys, each
`Option` (absent key = `none`) — or a raw object, possibly Python `None`. -/

inductive Checkpoint where
  | dict (weight : Option Tensor) (weights : Option Tensor) (bias : Option Tensor)
  | raw (obj : Option Tensor)
deriving DecidableEq

def load_probe_from_file (probe_path : String) (checkpoint : Checkpoint) :
    Except String (Tensor × Option Tensor) :=
  let wb : Option Tensor × Option Tensor :=
    match checkpoint with
    | .dict w ws b => (w.orElse (fun _ => ws), b)
    | .raw t => (t, none)
  match wb.1 with
  | none => .error ("Could not find weights in probe file: " ++ probe_path)
  | some w => .ok (w, wb.2)

/-! ## Activation extractor state — `ActivationExtractor` (src/activation_extraction.py)

Only the state the extractor itself owns is modelled: the `enabled` flag, the
configured layer filter, the (lazily created) activation store, the hook
manager and the registered model reference. External model objects are opaque
handles (`Nat`). The activation store is externally defined; its observed
contract is a container of records keyed by (request id, layer, position)
that `clear_all()` empties. -/

/-- One stored activation record: (request id, layer index, token position,
activation tensor). -/
abbrev ActRecord := String × Nat × Nat × List Int

/-- The observed state of the external `ActivationStore`. -/
abbrev ActivationStore := List ActRecord

/-- The observed state of the external `ActivationHookManager`: the store it
writes to and the configured layer filter. -/
structure HookManager where
  extract_layers : Option (List Int)
deriving DecidableEq

structure ActivationExtractorState where
  enabled : Bool
  extract_layers : Option (List Int)
  activation_store : Option ActivationStore
  hook_manager : Option HookManager
  model : Option Nat
deriving DecidableEq

/-- Transcription of `ActivationExtractor.cleanup` (src/activation_extraction.py, lines 93-101):

```python
with self._lock:
    if self.hook_manager is not None:
        self.hook_manager.remove_hooks()
        self.hook_manager = None
    if self.activation_store is not None:
        self.activation_store.clear_all()
    self._model = None
```
`remove_hooks` acts on the external model object; on the extractor's own
state the call drops the hook manager, empties the store when one exists, and
forgets the model reference. -/
def cleanup (s : ActivationExtractorState) : ActivationExtractorState :=
  { s with
    hook_manager := none
    activation_store := s.activation_store.map (fun _ => ([] : ActivationStore))
    model := none }

/-! ## `ModelHandler.generate` request-context handling (src/models.py, lines 199-213)

```python
if self.activation_extractor is not None:
    request_id = f"req_{id(prompt)}"
    self.activation_extractor.set_request_context([request_id])
outputs = self.model.generate([prompt], sampling_params)
generated_text = outputs[0].outputs[0].text
if self.activation_extractor is not None:
    self.activation_extractor.clear_request_context()
return generated_text
```
The engine call may raise; there is no `try`/`finally` around it.  The model
returns the triple (call result, the context in force while the engine call
runs, the context in force when control leaves the method — by return or by a
propagating exception). `id(prompt)` is a transient object identity, passed in
as an abstract `Nat`. -/

/-- The synthetic per-call request id `f"req_{id(prompt)}"`. -/
def synthRequestId (promptId : Nat) : String :=
  "req_" ++ toString promptId

def mh_generate (extractorPresent : Bool) (promptId : Nat)
    (engineResult : Except String String) (ctx : Option (List String)) :
    Except String String × Option (List String) × Option (List String) :=
  let ctxAtEngineCall :=
    if extractorPresent then some [synthRequestId promptId] else ctx
  match engineResult with
  | .error e => (.error e, ctxAtEngineCall, ctxAtEngineCall)
  | .ok t =>
      (.ok t, ctxAtEngineCall, if extractorPresent then none else ctxAtEngineCall)

/-! ## Hook registration — `ModelHandler.load_model` (src/models.py, lines 112-149)

The engine object is modelled by the presence/absence of the attributes the
code probes with `hasattr`; `get_model` is modelled as
`Option (Option Model)`: the outer `Option` is `hasattr(engine, "get_model")`,
the inner one the (nullable) return value, which the code checks with
`is not None`. Model objects are opaque handles (`Nat`). -/

abbrev Model := Nat

structure ModelRunner where
  model : Option Model
deriving DecidableEq

structure Worker where
  model_runner : Option ModelRunner
deriving DecidableEq

structure ModelExecutor where
  driver_worker : Option Worker
  workers : Option (List Worker)
deriving DecidableEq

structure Engine where
  get_model : Option (Option Model)
  model_executor : Option ModelExecutor
deriving DecidableEq

/-- Outcome of the hook-registration block: which attribute path registered
the hooks, or no registration (with or without the warning print). -/
inductive HookReg where
  | viaGetModel (m : Model)
  | viaDriverWorker (m : Model)
  | viaWorkers (m : Model)
  | noReg (warned : Bool)
deriving DecidableEq

/-- Direct transcription of the `if hasattr(engine, "get_model") / elif
hasattr(engine, "model_executor") / else: warning` block of
`ModelHandler.load_model` (src/models.py, lines 112-149). -/
def load_model_hooks (e : Engine) : HookReg :=
  match e.get_model with
  | some r =>
      match r with
      | some m => .viaGetModel m
      | none => .noReg false
  | none =>
      match e.model_executor with
      | some ex =>
          match ex.driver_worker with
          | some w =>
              match w.model_runner with
              | some run =>
                  match run.model with
                  | some m => .viaDriverWorker m
                  | none => .noReg false
              | none => .noReg false
          | none =>
              match ex.workers with
              | some ws =>
                  match ws with
                  | [] => .noReg false
                  | w :: _ =>
                      match w.model_runner with
                      | some run =>
                          match run.model with
                          | some m => .viaWorkers m
                          | none => .noReg false
                      | none => .noReg false
              | none => .noReg false
      | none => .noReg true

/-- The spec's reading of hook resolution (spec.md §4.2): resolve each
attribute chain to an optional model value. Chain 1 is the `get_model`
accessor, chain 2 `model_executor → driver_worker → model_runner → model`,
chain 3 `model_executor → workers[0] → model_runner → model`. -/
def chain1 (e : Engine) : Option Model :=
  e.get_model.bind id

def chain2 (e : Engine) : Option Model :=
  (((e.model_executor.bind (fun ex => ex.driver_worker)).bind
      (fun w => w.model_runner)).bind (fun run => run.model))

def chain3 (e : Engine) : Option Model :=
  ((((e.model_executor.bind (fun ex => ex.workers)).bind
      (fun ws => ws.head?)).bind
      (fun w => w.model_runner)).bind (fun run => run.model))

/-! ## Cache locator (src/models.py, lines 152-171)

```python
def check_model_in_cache(self):
    cache_model_name = self.hf_to_cache_format(self.model_name)
    cache_path = os.path.join(self.HF_CACHE_DIR, cache_model_name)
    return os.path.exists(cache_path)

def list_models_in_cache(self):
    if not os.path.exists(self.HF_CACHE_DIR):
        return []
    all_items = os.listdir(self.HF_CACHE_DIR)
    model_dirs = [item for item in all_items if item.startswith("models--")]
    return model_dirs

def hf_to_cache_format(self, model_name):
    return "models--" + model_name.replace("/", "--")
```
The relevant filesystem state is the hub cache directory: `none` when the
directory does not exist, `some entries` for its listing; a path
`join(HF_CACHE_DIR, key)` exists exactly when `key` is in the listing. -/

/-- Python `s.replace("/", "--")` for the single-character pattern `"/"`:
each `/` becomes `--`, every other character is kept. -/
def substSlash : List Char → List Char
  | [] => []
  | c :: r => (if c = '/' then ['-', '-'] else [c]) ++ substSlash r

def hf_to_cache_format_chars (name : List Char) : List Char :=
  "models--".data ++ substSlash name

def hf_to_cache_format (name : String) : String :=
  String.mk (hf_to_cache_format_chars name.data)

structure HubCache where
  entries : Option (List String)
deriving DecidableEq

def check_model_in_cache (fs : HubCache) (model_name : String) : Bool :=
  match fs.entries with
  | none => false
  | some es => es.contains (hf_to_cache_format model_name)

def list_models_in_cache (fs : HubCache) : List String :=
  match fs.entries with
  | none => []
  | some es => es.filter (fun item => item.startsWith "models--")

/-- The cache-only guard at the top of `ModelHandler.load_model`
(src/models.py, lines 83-89):

```python
if self.local_files_only and not self.check_model_in_cache():
    available_models = self.list_models_in_cache()
    raise ValueError(
        f"Model {self.model_name} not found in cache (local_files_only=True).\n"
        f"Cache directory: {self.HF_CACHE_DIR}\n"
        f"Available models: {', '.join(available_models)}"
    )
```
-/
def load_model_cache_guard (cacheDir : String) (fs : HubCache)
    (model_name : String) (local_files_only : Bool) : Except String Unit :=
  if local_files_only && !check_model_in_cache fs model_name then
    .error (("Model " ++ model_name ++ " not found in cache (local_files_only=True).\nCache directory: ")
      ++ cacheDir
      ++ ("\nAvailable models: " ++ String.intercalate ", " (list_models_in_cache fs)))
  else .ok ()

/-! ## Effective max-tokens (src/models.py, line 181)

```python
max_tokens = max_tokens or max_length or max_new_tokens
```
Python truthiness on these integer-or-None parameters: `None` and `0` are
falsy, every other integer truthy; `or` returns its first truthy operand,
else its last operand. -/

def pyTruthyInt : Option Int → Bool
  | none => false
  | some n => n != 0

def pyOrInt (a b : Option Int) : Option Int :=
  if pyTruthyInt a then a else b

def effective_max_tokens (max_tokens max_length max_new_tokens : Option Int) :
    Option Int :=
  pyOrInt max_tokens (pyOrInt max_length max_new_tokens)

/-! ## CLI validation of the probe-enabled entry point (src/inference.py, lines 23-48)

```python
extract_layers_list = None
if extract_layers:
    try:
        extract_layers_list = [int(x.strip()) for x in extract_layers.split(",")]
    except ValueError:
        click.echo("Error: --extract-layers must be comma-separated integers", err=True)
        return
if probe_path and probe_layer is None:
    click.echo("Error: --probe-layer is required when --probe-path is set", err=True)
    return
model = ModelHandler(...)
generated_text = model.generate(prompt=prompt)
```
The outcome distinguishes an early usage-error return from reaching the
`ModelHandler` construction and generation (`run`). -/

def pyTruthyStr : Option String → Bool
  | none => false
  | some s => s != ""

/-- Python `s.split(",")` on a character list, accumulator-style. -/
def splitCommaAux : List Char → List Char → List (List Char)
  | [], acc => [acc.reverse]
  | c :: r, acc =>
      if c = ',' then acc.reverse :: splitCommaAux r [] else splitCommaAux r (c :: acc)

def isSpaceChar (c : Char) : Bool :=
  c == ' ' || c == '\t' || c == '\n' || c == '\r'

/-- Python `s.strip()`. -/
def pyStrip (l : List Char) : List Char :=
  ((l.dropWhile isSpaceChar).reverse.dropWhile isSpaceChar).reverse

def isDigitChar (c : Char) : Bool :=
  '0' ≤ c && c ≤ '9'

def digitsToNat (l : List Char) : Nat :=
  l.foldl (fun n c => 10 * n + (c.toNat - 48)) 0

/-- Python `int(s)` on an already-stripped string: an optional sign followed
by at least one digit; anything else raises `ValueError` (`none`). -/
def pyInt : List Char → Option Int
  | '-' :: r => if !r.isEmpty && r.all isDigitChar then some (-(digitsToNat r : Int)) else none
  | '+' :: r => if !r.isEmpty && r.all isDigitChar then some ((digitsToNat r : Int)) else none
  | r => if !r.isEmpty && r.all isDigitChar then some ((digitsToNat r : Int)) else none

/-- Model of `[int(x.strip()) for x in extract_layers.split(",")]`, `none` when any
element raises `ValueError`. -/
def parse_extract_layers (s : String) : Option (List Int) :=
  (splitCommaAux s.data []).mapM (fun x => pyInt (pyStrip x))

structure CliArgs where
  model_name : String
  prompt : String
  extract_activations : Bool
  extract_layers : Option String
  probe_path : Option String
  probe_layer : Option Int
deriving DecidableEq

inductive CliOutcome where
  | usage (msg : String)
  | run (extract_layers_list : Option (List Int))
deriving DecidableEq

def inference_main (a : CliArgs) : CliOutcome :=
  if pyTruthyStr a.extract_layers
      && (parse_extract_layers (a.extract_layers.getD "")).isNone then
    .usage "Error: --extract-layers must be comma-separated integers"
  else if pyTruthyStr a.probe_path && a.probe_layer.isNone then
    .usage "Error: --probe-layer is required when --probe-path is set"
  else
    .run (if pyTruthyStr a.extract_layers then
            parse_extract_layers (a.extract_layers.getD "")
          else none)

/-! ## Auxiliary predicates for the cache-key analysis -/

/-- Predicate `containsDD l = true` iff `l` has two consecutive dashes (the substring
`"--"`). -/
def containsDD : List Char → Bool
  | [] => false
  | [_] => false
  | a :: b :: r => (a == '-' && b == '-') || containsDD (b :: r)

/-- Predicate `endsDash l = true` iff the last character of `l` is a dash. -/
def endsDash : List Char → Bool
  | [] => false
  | [a] => a == '-'
  | _ :: r => endsDash r

/-! ## Helper lemmas -/

theorem substSlash_append (a b : List Char) :
    substSlash (a ++ b) = substSlash a ++ substSlash b := by
  induction a with
  | nil => rfl
  | cons c r ih => simp [substSlash, ih]

theorem substSlash_of_no_slash (l : List Char) (h : ∀ c ∈ l, c ≠ '/') :
    substSlash l = l := by
  induction l with
  | nil => rfl
  | cons c r ih =>
      have hc : c ≠ '/' := h c (List.mem_cons_self c r)
      simp [substSlash, hc, ih (fun x hx => h x (List.mem_cons_of_mem c hx))]

theorem containsDD_tail {a : Char} {l : List Char}
    (h : containsDD (a :: l) = false) : containsDD l = false := by
  cases l with
  | nil => rfl
  | cons b r =>
      simp [containsDD] at h
      simpa [containsDD] using h.2

theorem endsDash_tail {a : Char} {l : List Char}
    (h : endsDash (a :: l) = false) : endsDash l = false := by
  cases l with
  | nil => rfl
  | cons b r => simpa [endsDash] using h

/-- Splitting at a `"--"` separator is unambiguous when both left parts are
free of `"--"` and do not end in a dash. -/
theorem dd_split (o1 : List Char) : ∀ (o2 m1 m2 : List Char),
    containsDD o1 = false → containsDD o2 = false →
    endsDash o1 = false → endsDash o2 = false →
    o1 ++ '-' :: '-' :: m1 = o2 ++ '-' :: '-' :: m2 → o1 = o2 ∧ m1 = m2 := by
  induction o1 with
  | nil =>
      intro o2 m1 m2 _ h2 _ e2 heq
      cases o2 with
      | nil =>
          simp at heq
          exact ⟨rfl, heq⟩
      | cons c o2' =>
          simp only [List.nil_append, List.cons_append, List.cons.injEq] at heq
          obtain ⟨hc, htl⟩ := heq
          cases o2' with
          | nil =>
              subst hc
              simp [endsDash] at e2
          | cons c' o2'' =>
              simp only [List.cons_append, List.cons.injEq] at htl
              obtain ⟨hc', _⟩ := htl
              subst hc
              subst hc'
              simp [containsDD] at h2
  | cons c o1' ih =>
      intro o2 m1 m2 h1 h2 e1 e2 heq
      cases o2 with
      | nil =>
          simp only [List.nil_append, List.cons_append, List.cons.injEq] at heq
          obtain ⟨hc, htl⟩ := heq
          cases o1' with
          | nil =>
              subst hc
              simp [endsDash] at e1
          | cons c' o1'' =>
              simp only [List.cons_append, List.cons.injEq] at htl
              obtain ⟨hc', _⟩ := htl
              subst hc
              subst hc'
              simp [containsDD] at h1
      | cons c2 o2' =>
          simp only [List.cons_append, List.cons.injEq] at heq
          obtain ⟨hc, htl⟩ := heq
          subst hc
          obtain ⟨ho, hm⟩ := ih o2' m1 m2 (containsDD_tail h1) (containsDD_tail h2)
            (endsDash_tail e1) (endsDash_tail e2) htl
          exact ⟨by rw [ho], hm⟩

/-! ## Claim theorems -/

/-- Claim C3: for rank-1 probe weights, `compute_probe` is the dot product of
the activation and the weights, plus the bias when one is given (a scalar);
for rank-2 weights of shape R×D and an activation of length D it is the
length-R matrix–vector product of weights and activation, plus the bias
broadcast over the R entries when one is given (elementwise for a length-R
bias vector, uniformly for a scalar bias). -/
theorem compute_probe_matches_spec :
    (∀ (a w : List Int), a.length = w.length →
      compute_probe (Tensor.vec a) (Tensor.vec w) none
        = some (Tensor.scalar (torchDot a w)))
  ∧ (∀ (a w : List Int) (x : Int), a.length = w.length →
      compute_probe (Tensor.vec a) (Tensor.vec w) (some (Tensor.scalar x))
        = some (Tensor.scalar (torchDot a w + x)))
  ∧ (∀ (wm : List (List Int)) (a : List Int),
      (∀ r ∈ wm, r.length = a.length) →
      (torchMatvec wm a).length = wm.length
      ∧ compute_probe (Tensor.vec a) (Tensor.mat wm) none
          = some (Tensor.vec (torchMatvec wm a))
      ∧ (∀ bv : List Int, bv.length = wm.length →
          compute_probe (Tensor.vec a) (Tensor.mat wm) (some (Tensor.vec bv))
            = some (Tensor.vec (List.zipWith (· + ·) (torchMatvec wm a) bv)))
      ∧ (∀ x : Int,
          compute_probe (Tensor.vec a) (Tensor.mat wm) (some (Tensor.scalar x))
            = some (Tensor.vec ((torchMatvec wm a).map (· + x))))) := by
  refine ⟨?_, ?_, ?_⟩
  · intro a w h
    simp [compute_probe, Tensor.dim, h]
  · intro a w x h
    simp [compute_probe, Tensor.dim, h, tensorAdd]
  · intro wm a h
    have hall : wm.all (fun r => r.length = a.length) = true := by
      simp only [List.all_eq_true, decide_eq_true_eq]
      exact h
    have hlen : (torchMatvec wm a).length = wm.length := by
      simp [torchMatvec]
    refine ⟨hlen, ?_, ?_, ?_⟩
    · simp [compute_probe, Tensor.dim, hall]
    · intro bv hbv
      simp [compute_probe, Tensor.dim, hall, tensorAdd, hlen, hbv]
    · intro x
      simp [compute_probe, Tensor.dim, hall, tensorAdd]

/-- Witness for C3 at concrete inputs. -/
theorem compute_probe_matches_spec_witness :
    compute_probe (Tensor.vec [1, 2]) (Tensor.vec [3, 4]) (some (Tensor.scalar 5))
      = some (Tensor.scalar 16)
  ∧ compute_probe (Tensor.vec [1, 2]) (Tensor.mat [[1, 0], [0, 1], [1, 1]])
      (some (Tensor.vec [10, 20, 30]))
      = some (Tensor.vec [11, 22, 33]) := by
  constructor
  · have h := compute_probe_matches_spec.2.1 [1, 2] [3, 4] 5 rfl
    rw [h]
    decide
  · have h := (compute_probe_matches_spec.2.2 [[1, 0], [0, 1], [1, 1]] [1, 2]
      (by decide)).2.2.1 [10, 20, 30] rfl
    rw [h]
    decide

/-- Claim C4: `load_probe_from_file` on a mapping returns the value under
`"weight"` when present, otherwise under `"weights"`, with the value under
`"bias"` (or none) as bias; a non-mapping checkpoint is returned whole as the
weights with no bias; a value error is raised exactly in the cases where no
weights are found this way. -/
theorem load_probe_from_file_matches_spec (p : String) :
    (∀ (t : Tensor) (ws b : Option Tensor),
      load_probe_from_file p (Checkpoint.dict (some t) ws b) = .ok (t, b))
  ∧ (∀ (t : Tensor) (b : Option Tensor),
      load_probe_from_file p (Checkpoint.dict none (some t) b) = .ok (t, b))
  ∧ (∀ b : Option Tensor,
      load_probe_from_file p (Checkpoint.dict none none b)
        = .error ("Could not find weights in probe file: " ++ p))
  ∧ (∀ t : Tensor,
      load_probe_from_file p (Checkpoint.raw (some t)) = .ok (t, none))
  ∧ load_probe_from_file p (Checkpoint.raw none)
      = .error ("Could not find weights in probe file: " ++ p) :=
  ⟨fun _ _ _ => rfl, fun _ _ => rfl, fun _ => rfl, fun _ => rfl, rfl⟩

/-- Claim C5: `cleanup` is idempotent — a second call changes nothing, the
hook manager is absent after cleanup, the store (when one exists) is empty
after cleanup, and the model reference is dropped. -/
theorem cleanup_idempotent (s : ActivationExtractorState) :
    cleanup (cleanup s) = cleanup s
  ∧ (cleanup s).hook_manager = none
  ∧ (cleanup s).activation_store
      = s.activation_store.map (fun _ => ([] : ActivationStore))
  ∧ (cleanup s).model = none := by
  obtain ⟨en, el, st, hm, m⟩ := s
  cases st <;> simp [cleanup]

/-- Claim C7: the cache-locator operations are total — with the cache
directory absent `list_models_in_cache` yields `[]`; for model name
`"acme/tiny"`, `check_model_in_cache` is true when the directory holds an
entry `"models--acme--tiny"` and false when the directory is empty. -/
theorem cache_locator_scenarios :
    list_models_in_cache ⟨none⟩ = []
  ∧ check_model_in_cache ⟨some ["models--acme--tiny"]⟩ "acme/tiny" = true
  ∧ check_model_in_cache ⟨some []⟩ "acme/tiny" = false
  ∧ list_models_in_cache ⟨some []⟩ = [] := by
  decide

/-- Claim C10: the effective max-token limit is chosen by Python truthiness
chaining — `max_tokens` when set and nonzero, else `max_length` when set and
nonzero, else `max_new_tokens`; `0` and `None` are treated as absent. -/
theorem effective_max_tokens_matches_spec (mt ml mnt : Option Int) :
    (pyTruthyInt mt = true → effective_max_tokens mt ml mnt = mt)
  ∧ (pyTruthyInt mt = false → pyTruthyInt ml = true →
      effective_max_tokens mt ml mnt = ml)
  ∧ (pyTruthyInt mt = false → pyTruthyInt ml = false →
      effective_max_tokens mt ml mnt = mnt)
  ∧ pyTruthyInt none = false
  ∧ pyTruthyInt (some 0) = false
  ∧ (∀ n : Int, n ≠ 0 → pyTruthyInt (some n) = true)
  ∧ effective_max_tokens (some 0) ml mnt = effective_max_tokens none ml mnt
  ∧ effective_max_tokens mt (some 0) mnt = effective_max_tokens mt none mnt := by
  refine ⟨?_, ?_, ?_, rfl, by decide, ?_, ?_, ?_⟩
  · intro h
    simp [effective_max_tokens, pyOrInt, h]
  · intro h1 h2
    simp [effective_max_tokens, pyOrInt, h1, h2]
  · intro h1 h2
    simp [effective_max_tokens, pyOrInt, h1, h2]
  · intro n hn
    simp [pyTruthyInt, hn]
  · simp [effective_max_tokens, pyOrInt, pyTruthyInt]
  · simp [effective_max_tokens, pyOrInt, pyTruthyInt]

/-- Witness for C10 at concrete inputs: an explicit `max_tokens` wins, a zero
`max_tokens` falls through to `max_length`, and with both absent the default
`max_new_tokens = 100` is used. -/
theorem effective_max_tokens_witness :
    effective_max_tokens (some 5) (some 0) (some 100) = some 5
  ∧ effective_max_tokens (some 0) (some 7) (some 100) = some 7
  ∧ effective_max_tokens none none (some 100) = some 100 :=
  ⟨(effective_max_tokens_matches_spec (some 5) (some 0) (some 100)).1 (by decide),
   (effective_max_tokens_matches_spec (some 0) (some 7) (some 100)).2.1
     (by decide) (by decide),
   (effective_max_tokens_matches_spec none none (some 100)).2.2.1
     (by decide) (by decide)⟩

/-- Claim C1, counterexample: when the engine call raises, `generate`
propagates the exception with the request context still set — it is not
cleared, contrary to the claim's "regardless of outcome". -/
theorem generate_context_not_cleared_on_error :
    (mh_generate true 0 (Except.error "boom") none).1 = Except.error "boom"
  ∧ (mh_generate true 0 (Except.error "boom") none).2.2
      = some [synthRequestId 0]
  ∧ (mh_generate true 0 (Except.error "boom") none).2.2 ≠ none := by
  refine ⟨rfl, rfl, ?_⟩
  simp [mh_generate]

/-- Claim C1 as amended: with extraction active, the synthetic request context
is set before the engine call (the engine call runs under it); it is cleared
after a successful call; when the engine call raises, the exception propagates
with the context still set. -/
theorem generate_context_lifecycle (pid : Nat) (r : Except String String)
    (ctx : Option (List String)) :
    (mh_generate true pid r ctx).2.1 = some [synthRequestId pid]
  ∧ (∀ t, r = .ok t → (mh_generate true pid r ctx).2.2 = none)
  ∧ (∀ e, r = .error e →
      (mh_generate true pid r ctx).1 = .error e
      ∧ (mh_generate true pid r ctx).2.2 = some [synthRequestId pid]) := by
  cases r <;> simp [mh_generate]

/-- Witness for the amended C1 at concrete inputs. -/
theorem generate_context_lifecycle_witness :
    (mh_generate true 1 (Except.ok "hi") none).2.2 = none :=
  (generate_context_lifecycle 1 (Except.ok "hi") none).2.1 "hi" rfl

/-- Claim C2, counterexample: an engine whose `get_model` accessor exists but
returns null, while the `model_executor → driver_worker → model_runner →
model` chain resolves to a model. The claim says hooks are registered on that
chain (or at least a warning is emitted when nothing is registered); the code
registers nothing and emits no warning, because the `elif` chain short-circuits
on attribute presence, not on resolving a non-null model. -/
theorem hook_resolution_counterexample :
    chain2 ⟨some none, some ⟨some ⟨some ⟨some 7⟩⟩, none⟩⟩ = some 7
  ∧ load_model_hooks ⟨some none, some ⟨some ⟨some ⟨some 7⟩⟩, none⟩⟩
      = HookReg.noReg false := by
  exact ⟨rfl, rfl⟩

/-- Claim C2 as amended: attribute probing short-circuits on attribute
presence. If the engine has `get_model`, only that accessor is consulted:
hooks are registered exactly when it returns non-null, and a null return
registers nothing and emits no warning even when a legacy chain would resolve.
Otherwise, with `model_executor` present, the `driver_worker` chain is used
when `driver_worker` exists, else the `workers[0]` chain when `workers`
exists; dead ends register nothing without warning. The warning is emitted
exactly when the engine has neither `get_model` nor `model_executor`.
The clauses below are exhaustive — every engine falls under exactly one of
them — so the outcome is pinned down for all engines; in particular a
`driver_worker` dead end registers nothing even when the `workers[0]` chain
would resolve to a model. -/
theorem hook_resolution_matches_code (e : Engine) :
    (∀ m, e.get_model = some (some m) → load_model_hooks e = .viaGetModel m)
  ∧ (e.get_model = some none → load_model_hooks e = .noReg false)
  ∧ (load_model_hooks e = .noReg true ↔
      e.get_model = none ∧ e.model_executor = none)
  ∧ (∀ ex w run m, e.get_model = none → e.model_executor = some ex →
      ex.driver_worker = some w → w.model_runner = some run →
      run.model = some m → load_model_hooks e = .viaDriverWorker m)
  ∧ (∀ ex w, e.get_model = none → e.model_executor = some ex →
      ex.driver_worker = some w →
      (w.model_runner = none
        ∨ ∃ run, w.model_runner = some run ∧ run.model = none) →
      load_model_hooks e = .noReg false)
  ∧ (∀ ex w ws run m, e.get_model = none → e.model_executor = some ex →
      ex.driver_worker = none → ex.workers = some (w :: ws) →
      w.model_runner = some run → run.model = some m →
      load_model_hooks e = .viaWorkers m)
  ∧ (∀ ex, e.get_model = none → e.model_executor = some ex →
      ex.driver_worker = none →
      (ex.workers = none ∨ ex.workers = some []
        ∨ ∃ w ws, ex.workers = some (w :: ws)
            ∧ (w.model_runner = none
                ∨ ∃ run, w.model_runner = some run ∧ run.model = none)) →
      load_model_hooks e = .noReg false) := by
  refine ⟨?_, ?_, ?_, ?_, ?_, ?_, ?_⟩
  · intro m h
    unfold load_model_hooks
    rw [h]
  · intro h
    unfold load_model_hooks
    rw [h]
  · obtain ⟨gm, mex⟩ := e
    cases gm with
    | some r => cases r <;> simp [load_model_hooks]
    | none =>
        cases mex with
        | none => simp [load_model_hooks]
        | some ex =>
            obtain ⟨dw, wks⟩ := ex
            cases dw with
            | some w =>
                obtain ⟨mr⟩ := w
                cases mr with
                | some run =>
                    obtain ⟨mo⟩ := run
                    cases mo <;> simp [load_model_hooks]
                | none => simp [load_model_hooks]
            | none =>
                cases wks with
                | none => simp [load_model_hooks]
                | some ws =>
                    cases ws with
                    | nil => simp [load_model_hooks]
                    | cons w rest =>
                        obtain ⟨mr⟩ := w
                        cases mr with
                        | some run =>
                            obtain ⟨mo⟩ := run
                            cases mo <;> simp [load_model_hooks]
                        | none => simp [load_model_hooks]
  · intro ex w run m hg he hd hm hmo
    obtain ⟨gm, mex⟩ := e
    obtain ⟨dw, wks⟩ := ex
    obtain ⟨mr⟩ := w
    obtain ⟨mo⟩ := run
    dsimp only at hg he hd hm hmo
    subst hg
    subst he
    subst hd
    subst hm
    subst hmo
    rfl
  · intro ex w hg he hd hdead
    obtain ⟨gm, mex⟩ := e
    obtain ⟨dw, wks⟩ := ex
    obtain ⟨mr⟩ := w
    dsimp only at hg he hd
    subst hg
    subst he
    subst hd
    rcases hdead with hnone | ⟨run, hrun, hmo⟩
    · dsimp only at hnone
      subst hnone
      rfl
    · obtain ⟨mo⟩ := run
      dsimp only at hrun hmo
      subst hrun
      subst hmo
      rfl
  · intro ex w ws run m hg he hd hw hm hmo
    obtain ⟨gm, mex⟩ := e
    obtain ⟨dw, wks⟩ := ex
    obtain ⟨mr⟩ := w
    obtain ⟨mo⟩ := run
    dsimp only at hg he hd hw hm hmo
    subst hg
    subst he
    subst hd
    subst hw
    subst hm
    subst hmo
    rfl
  · intro ex hg he hd hdead
    obtain ⟨gm, mex⟩ := e
    obtain ⟨dw, wks⟩ := ex
    dsimp only at hg he hd
    subst hg
    subst he
    subst hd
    rcases hdead with h | h | ⟨w, ws, hws, hw⟩
    · dsimp only at h
      subst h
      rfl
    · dsimp only at h
      subst h
      rfl
    · obtain ⟨mr⟩ := w
      dsimp only at hws
      subst hws
      rcases hw with hnone | ⟨run, hrun, hmo⟩
      · dsimp only at hnone
        subst hnone
        rfl
      · obtain ⟨mo⟩ := run
        dsimp only at hrun hmo
        subst hrun
        subst hmo
        rfl

/-- Witness for the amended C2 at concrete engines, including a
`driver_worker` dead end on an engine whose `workers[0]` chain would resolve
(no hooks, no warning) and an empty `workers` list. -/
theorem hook_resolution_matches_code_witness :
    load_model_hooks ⟨some (some 3), none⟩ = HookReg.viaGetModel 3
  ∧ load_model_hooks ⟨none, none⟩ = HookReg.noReg true
  ∧ load_model_hooks ⟨none, some ⟨some ⟨some ⟨some 4⟩⟩, none⟩⟩
      = HookReg.viaDriverWorker 4
  ∧ load_model_hooks ⟨none, some ⟨some ⟨none⟩, some [⟨some ⟨some 9⟩⟩]⟩⟩
      = HookReg.noReg false
  ∧ load_model_hooks ⟨none, some ⟨none, some [⟨some ⟨some 5⟩⟩]⟩⟩
      = HookReg.viaWorkers 5
  ∧ load_model_hooks ⟨none, some ⟨none, some []⟩⟩ = HookReg.noReg false :=
  ⟨(hook_resolution_matches_code ⟨some (some 3), none⟩).1 3 rfl,
   (hook_resolution_matches_code ⟨none, none⟩).2.2.1.mpr ⟨rfl, rfl⟩,
   (hook_resolution_matches_code ⟨none, some ⟨some ⟨some ⟨some 4⟩⟩, none⟩⟩).2.2.2.1
     ⟨some ⟨some ⟨some 4⟩⟩, none⟩ ⟨some ⟨some 4⟩⟩ ⟨some 4⟩ 4 rfl rfl rfl rfl rfl,
   (hook_resolution_matches_code
       ⟨none, some ⟨some ⟨none⟩, some [⟨some ⟨some 9⟩⟩]⟩⟩).2.2.2.2.1
     ⟨some ⟨none⟩, some [⟨some ⟨some 9⟩⟩]⟩ ⟨none⟩ rfl rfl rfl (Or.inl rfl),
   (hook_resolution_matches_code ⟨none, some ⟨none, some [⟨some ⟨some 5⟩⟩]⟩⟩).2.2.2.2.2.1
     ⟨none, some [⟨some ⟨some 5⟩⟩]⟩ ⟨some ⟨some 5⟩⟩ [] ⟨some 5⟩ 5
     rfl rfl rfl rfl rfl rfl,
   (hook_resolution_matches_code ⟨none, some ⟨none, some []⟩⟩).2.2.2.2.2.2
     ⟨none, some []⟩ rfl rfl rfl (Or.inr (Or.inl rfl))⟩

/-- Claim C6: with cache-only mode requested, `load_model` raises a
configuration error exactly when the model is absent from the cache, and the
error message contains both the attempted cache directory path and the
comma-joined list of available cached models. -/
theorem cache_only_guard_matches_spec (cacheDir : String) (fs : HubCache)
    (name : String) :
    ((∃ msg, load_model_cache_guard cacheDir fs name true = .error msg)
      ↔ check_model_in_cache fs name = false)
  ∧ (∀ msg, load_model_cache_guard cacheDir fs name true = .error msg →
      (∃ p q, msg = p ++ cacheDir ++ q)
      ∧ (∃ p q, msg = p ++ String.intercalate ", " (list_models_in_cache fs) ++ q)) := by
  cases h : check_model_in_cache fs name
  · have heq : load_model_cache_guard cacheDir fs name true
        = .error (("Model " ++ name ++ " not found in cache (local_files_only=True).\nCache directory: ")
          ++ cacheDir
          ++ ("\nAvailable models: " ++ String.intercalate ", " (list_models_in_cache fs))) := by
      simp [load_model_cache_guard, h]
    refine ⟨⟨fun _ => rfl, fun _ => ⟨_, heq⟩⟩, ?_⟩
    intro msg hmsg
    rw [heq] at hmsg
    simp only [Except.error.injEq] at hmsg
    constructor
    · exact ⟨_, _, hmsg.symm⟩
    · refine ⟨("Model " ++ name ++ " not found in cache (local_files_only=True).\nCache directory: ")
        ++ cacheDir ++ "\nAvailable models: ", "", ?_⟩
      rw [← hmsg]
      apply String.ext
      simp [String.data_append]
  · constructor
    · constructor
      · intro ⟨msg, hmsg⟩
        simp [load_model_cache_guard, h] at hmsg
      · intro hfalse
        cases hfalse
    · intro msg hmsg
      simp [load_model_cache_guard, h] at hmsg

/-- Witness for C6: an empty hub cache with cache-only mode yields the
configuration error. -/
theorem cache_only_guard_witness :
    ∃ msg, load_model_cache_guard "/cache" ⟨some []⟩ "acme/tiny" true
      = .error msg :=
  (cache_only_guard_matches_spec "/cache" ⟨some []⟩ "acme/tiny").1.mpr (by decide)

/-- Claim C8, counterexample: the two-segment name with org segment `a-` and
model segment `b` and the one with org segment `a` and model segment `-b` are
distinct, every segment is free of the double dash, yet both map to the same
cache key — the transform is not injective on the claimed domain. -/
theorem cache_key_not_injective :
    hf_to_cache_format "a-/b" = hf_to_cache_format "a/-b"
  ∧ ("a-/b" : String) ≠ "a/-b"
  ∧ ("a-/b" : String).data = "a-".data ++ '/' :: "b".data
  ∧ ("a/-b" : String).data = "a".data ++ '/' :: "-b".data
  ∧ containsDD "a-".data = false
  ∧ containsDD "b".data = false
  ∧ containsDD "a".data = false
  ∧ containsDD "-b".data = false
  ∧ ("a-".data.contains '/' || "b".data.contains '/'
      || "a".data.contains '/' || "-b".data.contains '/') = false := by
  decide

/-- Claim C8 as amended: the transform maps `"org/model"` to
`"models--org--model"`, and it is injective on two-segment names whose
segments contain no `"/"` and no `"--"` and whose org segment does not end in
a dash (without the last condition a dash at the segment boundary makes two
distinct names collide, as the counterexample shows). -/
theorem cache_key_transform :
    hf_to_cache_format "org/model" = "models--org--model"
  ∧ ∀ (o1 m1 o2 m2 : List Char),
      (∀ c ∈ o1, c ≠ '/') → (∀ c ∈ m1, c ≠ '/') →
      (∀ c ∈ o2, c ≠ '/') → (∀ c ∈ m2, c ≠ '/') →
      containsDD o1 = false → containsDD m1 = false →
      containsDD o2 = false → containsDD m2 = false →
      endsDash o1 = false → endsDash o2 = false →
      hf_to_cache_format_chars (o1 ++ '/' :: m1)
        = hf_to_cache_format_chars (o2 ++ '/' :: m2) →
      o1 = o2 ∧ m1 = m2 := by
  have key : ∀ (o m : List Char), (∀ c ∈ o, c ≠ '/') → (∀ c ∈ m, c ≠ '/') →
      hf_to_cache_format_chars (o ++ '/' :: m)
        = "models--".data ++ (o ++ '-' :: '-' :: m) := by
    intro o m ho hm
    simp [hf_to_cache_format_chars, substSlash_append, substSlash,
      substSlash_of_no_slash o ho, substSlash_of_no_slash m hm]
  constructor
  · decide
  · intro o1 m1 o2 m2 ho1 hm1 ho2 hm2 hdd1 _ hdd2 _ hed1 hed2 heq
    rw [key o1 m1 ho1 hm1, key o2 m2 ho2 hm2] at heq
    exact dd_split o1 o2 m1 m2 hdd1 hdd2 hed1 hed2
      (List.append_cancel_left heq)

/-- Witness for the amended C8 at a concrete input. -/
theorem cache_key_transform_witness :
    "ab".data = "ab".data ∧ "cd".data = "cd".data :=
  cache_key_transform.2 "ab".data "cd".data "ab".data "cd".data
    (by decide) (by decide) (by decide) (by decide)
    (by decide) (by decide) (by decide) (by decide)
    (by decide) (by decide) (by decide)

/-- Claim C9, counterexample: with `--probe-path` set, `--probe-layer` unset,
and a malformed `--extract-layers` value, the command reports the
extract-layers usage error, not the probe-layer one — the extract-layers
check runs first. (It still performs no generation.) -/
theorem cli_probe_layer_counterexample :
    inference_main ⟨"m", "p", false, some "abc", some "probe.pt", none⟩
      = CliOutcome.usage "Error: --extract-layers must be comma-separated integers"
  ∧ inference_main ⟨"m", "p", false, some "abc", some "probe.pt", none⟩
      ≠ CliOutcome.usage "Error: --probe-layer is required when --probe-path is set"
  ∧ pyTruthyStr (some "probe.pt") = true := by
  decide

/-- Claim C9 as amended: when `--probe-path` is set (truthy) and
`--probe-layer` is not, and `--extract-layers` — if set — parses as
comma-separated integers, the command reports the probe-layer usage error and
returns without constructing the model handler or generating. -/
theorem cli_probe_layer_guard (a : CliArgs) :
    pyTruthyStr a.probe_path = true →
    a.probe_layer = none →
    (pyTruthyStr a.extract_layers = true →
      (parse_extract_layers (a.extract_layers.getD "")).isSome = true) →
    inference_main a
      = CliOutcome.usage "Error: --probe-layer is required when --probe-path is set"
    ∧ ∀ l, inference_main a ≠ CliOutcome.run l := by
  intro hp hl hparse
  have h1 : (pyTruthyStr a.extract_layers
      && (parse_extract_layers (a.extract_layers.getD "")).isNone) = false := by
    cases htr : pyTruthyStr a.extract_layers with
    | false => simp
    | true =>
        have hs := hparse htr
        cases hopt : parse_extract_layers (a.extract_layers.getD "") with
        | none => rw [hopt] at hs; simp at hs
        | some v => simp [hopt]
  constructor
  · simp [inference_main, h1, hp, hl]
  · intro l
    simp [inference_main, h1, hp, hl]

/-- Witness for the amended C9 at concrete arguments. -/
theorem cli_probe_layer_guard_witness :
    inference_main ⟨"m", "p", false, none, some "probe.pt", none⟩
      = CliOutcome.usage "Error: --probe-layer is required when --probe-path is set" :=
  (cli_probe_layer_guard ⟨"m", "p", false, none, some "probe.pt", none⟩
    (by decide) rfl (fun h => by simp [pyTruthyStr] at h)).1

end ProbeRunner
